import Mathlib

/-!
Verification of the Ghost Protocol beacon (C sources:
`ghost_protocol/beacon/c_src/beacon.c`, `communication.c`, `beacon.h`)
against its natural-language specification.

The development is a shallow embedding of the beacon's check-in engine:
C `int`/`size_t` arithmetic is modelled with `Int`/`Nat` (C's truncating
division and remainder are `Int.tdiv` and `Int.tmod`), fixed C strings are
modelled as Lean `String`s (the claims under study do not depend on the
byte capacities of the C arrays except where explicitly modelled at the
character level, as for `execute_shell_command`), and the external world
(the clock, the network peer, the shell and the working directory) is
passed in as explicit oracle parameters.  `rand()` is modelled as an
arbitrary natural number supplied per draw.
-/

/-- Mirror of `beacon_config_t` from `beacon.h`.  The C struct holds fixed
size character arrays; the claims below do not depend on those capacities,
so the fields are plain strings and integers. -/
structure BeaconConfig where
  server_url : String
  beacon_id : String
  user_agent : String
  sleep_interval : Int
  jitter_percent : Int
  verify_ssl : Bool
  proxy_url : String
deriving DecidableEq

/-- Mirror of `system_info_t` from `beacon.h`. -/
structure SystemInfo where
  hostname : String
  username : String
  os_name : String
  os_version : String
  architecture : String
  pid : Nat
  cwd : String
  ip_addresses : String
deriving DecidableEq

/-- Mirror of `command_t` from `beacon.h`. -/
structure Command where
  id : String
  command : String
  args : String
deriving DecidableEq

/-- Mirror of `command_result_t` from `beacon.h`.  `success` is the C
`int` used as a boolean. -/
structure CommandResult where
  command_id : String
  success : Bool
  output : String
  timestamp : String
deriving DecidableEq

/-- The sleep duration computed by `sleep_with_jitter` (`beacon.c`):

    if (jitter_percent > 0) {
        int jitter_range = (base_seconds * jitter_percent) / 100;
        int jitter = (rand() % (2 * jitter_range + 1)) - jitter_range;
        int sleep_time = base_seconds + jitter;
        if (sleep_time < 1) sleep_time = 1;
        sleep(sleep_time);
    } else {
        sleep(base_seconds);
    }

C division and remainder on `int` truncate toward zero, which is
`Int.tdiv` and `Int.tmod`; `rand()` returns a nonnegative `int`, modelled
by the draw `r : Nat`.  The returned value is the argument passed to
`sleep`. -/
def sleep_with_jitter_duration (base_seconds jitter_percent : Int) (r : Nat) : Int :=
  if jitter_percent > 0 then
    let jitter_range := Int.tdiv (base_seconds * jitter_percent) 100
    let jitter := Int.tmod (Int.ofNat r) (2 * jitter_range + 1) - jitter_range
    let sleep_time := base_seconds + jitter
    if sleep_time < 1 then 1 else sleep_time
  else base_seconds

/-- Oracle for the effects `execute_command` (`beacon.c`) performs: the
clock read by `get_current_timestamp`, the shell subprocess
(`execute_shell_command`, summarised as exit-status-zero flag plus
captured output) and the working directory returned by `getcwd` (`none`
models a `getcwd` failure). -/
structure ExecEnv where
  now : String
  shell_run : String → Bool × String
  cwd : Option String

/-- Mirror of `execute_command` (`beacon.c`, Unix branch).  The function
zeroes the result, copies the command id, stamps the current time, then
branches on the verb: `shell`, `pwd`, `exit` (which clears `g_running`),
and a catch-all producing `Unknown command: <verb>` with success false.
The second component records whether the command was the termination verb
(i.e. whether the C code set `g_running = 0`). -/
def execute_command (env : ExecEnv) (cmd : Command) : CommandResult × Bool :=
  if cmd.command == "shell" then
    (⟨cmd.id, (env.shell_run cmd.args).1, (env.shell_run cmd.args).2, env.now⟩, false)
  else if cmd.command == "pwd" then
    match env.cwd with
    | some d => (⟨cmd.id, true, d, env.now⟩, false)
    | none => (⟨cmd.id, false, "Error getting current directory", env.now⟩, false)
  else if cmd.command == "exit" then
    (⟨cmd.id, true, "Beacon shutting down", env.now⟩, true)
  else
    (⟨cmd.id, false, "Unknown command: " ++ cmd.command, env.now⟩, false)

/-- The read loop of `execute_shell_command` (`beacon.c`), at the byte
level.  Each `fgets` call delivers one chunk (at most 1023 characters);
`total_read` is the running counter the C code keeps, `output` the bytes
stored so far.  The loop condition is `total_read < output_size - 1`; a
chunk is copied only when `total_read + len < output_size - 1`, otherwise
the loop breaks. -/
def capture_loop : Nat → List (List Char) → List Char → Nat → List Char
  | _, [], output, _ => output
  | output_size, c :: rest, output, total_read =>
    if total_read < output_size - 1 then
      if total_read + c.length < output_size - 1 then
        capture_loop output_size rest (output ++ c) (total_read + c.length)
      else output
    else output

/-- Mirror of `execute_shell_command` (`beacon.c`): on `popen` failure it
stores a fixed error message (via `strncpy`, truncated to
`output_size - 1`) and returns 0; otherwise it runs the read loop and
returns 1 exactly when `pclose` reported exit status 0.  The pair is
(success flag, stored output bytes). -/
def execute_shell_command (pipe_ok : Bool) (chunks : List (List Char)) (exit_status : Int) (output_size : Nat) : Bool × List Char :=
  if !pipe_ok then (false, "Error: Failed to execute command".data.take (output_size - 1))
  else ((exit_status == 0), capture_loop output_size chunks [] 0)

/-- Search for `pat` in a character list, as C `strstr` does: the index of
the first occurrence, `none` when absent. -/
def find_sub : List Char → List Char → Option Nat
  | [], pat => if pat.isEmpty then some 0 else none
  | c :: rest, pat =>
    if List.isPrefixOf pat (c :: rest) then some 0
    else (find_sub rest pat).map (· + 1)

/-- Substring test on strings, via `find_sub`. -/
def contains_sub (s pat : String) : Bool :=
  (find_sub s.data pat.data).isSome

/-- Digit-accumulating core of C `atoi` as used in this code base (the
inputs it is applied to — port digits, status-code digits — start with
digits, so whitespace and sign handling never trigger). -/
def atoi_go : List Char → Nat → Nat
  | [], acc => acc
  | c :: rest, acc =>
    if c.isDigit then atoi_go rest (acc * 10 + (c.toNat - '0'.toNat)) else acc

/-- C `atoi` on a character list (leading digits). -/
def atoi_nat (cs : List Char) : Nat := atoi_go cs 0

/-- Mirror of `parse_url` (`communication.c`): scheme test by string
comparison of the first 7 or 8 characters, then split of the remainder at
the first `:` and `/`.  Returns (hostname, port, path, use_ssl). -/
def parse_url (url : String) : String × Int × String × Bool :=
  let (start, port0, ssl) :=
    if url.take 7 == "http://" then (url.drop 7, (80 : Int), false)
    else if url.take 8 == "https://" then (url.drop 8, (443 : Int), true)
    else (url, (80 : Int), false)
  let cs := start.data
  let path_start := cs.findIdx? (fun c => c == '/')
  let port_start := cs.findIdx? (fun c => c == ':')
  match port_start, path_start with
  | some pi, some qi =>
    if pi < qi then
      (String.mk (cs.take pi), Int.ofNat (atoi_nat (cs.drop (pi + 1))), String.mk (cs.drop qi), ssl)
    else (String.mk (cs.take qi), port0, String.mk (cs.drop qi), ssl)
  | some pi, none =>
    (String.mk (cs.take pi), Int.ofNat (atoi_nat (cs.drop (pi + 1))), "/", ssl)
  | none, some qi => (String.mk (cs.take qi), port0, String.mk (cs.drop qi), ssl)
  | none, none => (String.mk cs, port0, "/", ssl)

/-- The transport channel a request is actually carried on.  The network
peer is an oracle mapping (channel, raw request bytes) to the raw response
bytes, or `none` for a resolution/connect/send failure. -/
inductive Channel
  | plaintext
  | tls
deriving DecidableEq

/-- The raw request bytes `http_request` (`communication.c`, Unix branch)
writes to the socket: request line, Host header, caller headers,
`Connection: close`, blank line, then the body if present. -/
def build_http_request (method path hostname headers : String) (data : Option String) : String :=
  method ++ " " ++ path ++ " HTTP/1.1\r\nHost: " ++ hostname ++ "\r\n" ++ headers ++
  "Connection: close\r\n\r\n" ++ data.getD ""

/-- Status-code extraction of `http_request`: `strstr` for `HTTP/1.1 `
then `atoi` of the following characters; 0 when the marker is absent. -/
def parse_status (raw : String) : Int :=
  match find_sub raw.data ("HTTP/1.1 ".data) with
  | some i => Int.ofNat (atoi_nat (raw.data.drop (i + 9)))
  | none => 0

/-- Mirror of `http_request` (`communication.c`, Unix branch): parses the
URL (the `use_ssl` result is computed and then ignored, as in the source),
always opens a plaintext socket, sends the built request and reads until
EOF; returns `none` on socket/resolve/connect/send failure and otherwise
the parsed status code together with the full raw response. -/
def http_request (net : Channel → String → Option String) (method url headers : String) (data : Option String) : Option (Int × String) :=
  match parse_url url with
  | (hostname, _port, path, _use_ssl) =>
    match net Channel.plaintext (build_http_request method path hostname headers data) with
    | none => none
    | some raw => some (parse_status raw, raw)

/-- Mirror of `https_request` (`communication.c`, Unix branch), which
prints `Warning: HTTPS not fully implemented, falling back to HTTP` and
calls `http_request` unchanged; the `verify_ssl` argument is dropped. -/
def https_request (net : Channel → String → Option String) (method url headers : String) (data : Option String) (verify_ssl : Bool) : Option (Int × String) :=
  http_request net method url headers data

/-- The literal timestamp string the C code passes for the top-level
`timestamp` field of every payload (`communication.c` marks it
`Placeholder timestamp`). -/
def ts_placeholder : String := "2024-01-01T00:00:00Z"

/-- One entry of the `command_results` array, as formatted by the loop in
`http_checkin` (`communication.c`); `first` tells whether the leading
comma is omitted (`i > 0 ? "," : ""`).  Field values are spliced in raw,
exactly as the `%s` conversions do. -/
def result_entry (first : Bool) (r : CommandResult) : String :=
  (if first then "" else ",") ++ "\x7b\"command_id\":\"" ++ r.command_id ++ "\",\"success\":" ++
  (if r.success then "true" else "false") ++ ",\"output\":\"" ++ r.output ++
  "\",\"timestamp\":\"" ++ r.timestamp ++ "\"\x7d"

/-- The result loop of `http_checkin`: entries are appended while
`offset < sizeof(json_data) - 256` (8192 − 256), `offset` advancing by
the formatted length of each entry. -/
def results_loop : Nat → Bool → List CommandResult → String
  | _, _, [] => ""
  | offset, first, r :: rest =>
    if offset < 8192 - 256 then
      let e := result_entry first r
      e ++ results_loop (offset + e.length) false rest
    else ""

/-- The result-bearing check-in payload of `http_checkin`
(`communication.c`): prefix with `beacon_id` and the placeholder
timestamp, then the entry loop, then `]` and the closing brace. -/
def results_checkin_payload (beacon_id : String) (results : List CommandResult) : String :=
  let pre := "\x7b\"beacon_id\":\"" ++ beacon_id ++ "\",\"timestamp\":\"" ++ ts_placeholder ++
    "\",\"command_results\":["
  pre ++ results_loop pre.length true results ++ "]\x7d"

/-- The regular (empty-buffer) check-in payload of `http_checkin` and
`https_checkin`. -/
def regular_checkin_payload (beacon_id : String) : String :=
  "\x7b\"beacon_id\":\"" ++ beacon_id ++ "\",\"timestamp\":\"" ++ ts_placeholder ++ "\"\x7d"

/-- The first check-in payload (system-info bearing) of `http_checkin`
and `https_checkin`. -/
def first_checkin_payload (beacon_id : String) (si : SystemInfo) : String :=
  "\x7b\"beacon_id\":\"" ++ beacon_id ++ "\",\"timestamp\":\"" ++ ts_placeholder ++
  "\",\"system_info\":\x7b\"hostname\":\"" ++ si.hostname ++ "\",\"username\":\"" ++ si.username ++
  "\",\"os_name\":\"" ++ si.os_name ++ "\",\"os_version\":\"" ++ si.os_version ++
  "\",\"architecture\":\"" ++ si.architecture ++ "\",\"pid\":" ++ toString si.pid ++
  ",\"cwd\":\"" ++ si.cwd ++ "\"\x7d\x7d"

/-- The headers both check-in functions build. -/
def checkin_headers (config : BeaconConfig) : String :=
  "User-Agent: " ++ config.user_agent ++ "\r\nContent-Type: application/json\r\nX-Beacon-ID: " ++
  config.beacon_id ++ "\r\n"

/-- Method and body selected by `http_checkin` (`communication.c`):
system-info payload on the first check-in, result-bearing payload when the
result array is non-empty, plain identity payload otherwise; the body is
sent (with POST) only in the first two cases, a bare GET otherwise. -/
def http_checkin_request (config : BeaconConfig) (sysinfo : Option SystemInfo) (results : List CommandResult) : String × Option String :=
  let json_data :=
    match sysinfo with
    | some si => first_checkin_payload config.beacon_id si
    | none =>
      if results.isEmpty then regular_checkin_payload config.beacon_id
      else results_checkin_payload config.beacon_id results
  let has_body := sysinfo.isSome || !results.isEmpty
  ((if has_body then "POST" else "GET"), if has_body then some json_data else none)

/-- Method and body selected by `https_checkin` (`communication.c`).  The
function receives the result array but its payload construction has only
the system-info and regular branches, and `data` is attached only when
`sysinfo` is present — the `results` parameter is never consulted. -/
def https_checkin_request (config : BeaconConfig) (sysinfo : Option SystemInfo) (results : List CommandResult) : String × Option String :=
  let json_data :=
    match sysinfo with
    | some si => first_checkin_payload config.beacon_id si
    | none => regular_checkin_payload config.beacon_id
  ((if sysinfo.isSome then "POST" else "GET"), if sysinfo.isSome then some json_data else none)

/-- Mirror of `parse_commands_json` (`communication.c`): it looks for the
literal `"commands":[` with `strstr`, and in both branches stores a null
command array and returns count 0 — the parser is a stub that yields the
empty command list for every input and can never fail. -/
def parse_commands_json (json : String) : List Command :=
  if (find_sub json.data ("\"commands\":[".data)).isSome then [] else []

/-- Scheme dispatch in `beacon_start`/`beacon_main_loop` (`beacon.c`):
`strncmp(config->server_url, "https://", 8) == 0`. -/
def uses_https (url : String) : Bool := url.take 8 == "https://"

/-- The success test and command extraction of `http_checkin` and
`https_checkin`: the transport must have returned 0 with response data
(`response = some (status, raw)`), the status must be exactly 200, and
then the raw response is fed to `parse_commands_json`; every other case
returns -1 (`none`). -/
def http_checkin_commands (response : Option (Int × String)) : Option (List Command) :=
  match response with
  | some (status, raw) => if status == 200 then some (parse_commands_json raw) else none
  | none => none

/-- Whether a check-in attempt reported success (return value 0 of
`http_checkin`/`https_checkin`). -/
def checkin_success (response : Option (Int × String)) : Bool :=
  match response with
  | some (status, _) => status == 200
  | none => false

/-- Engine state owned by `beacon_main_loop`: the result buffer
(`g_results`/`g_result_count`) and the running flag (`g_running`).  The
`executed` field is ghost instrumentation recording, in order, every
command that is actually passed to `execute_command`; the C code has no
such variable and it influences nothing. -/
structure BeaconState where
  results : List CommandResult
  running : Bool
  executed : List Command
deriving DecidableEq

/-- The dispatch loop of `beacon_main_loop` (`beacon.c`):

    for (int i = 0; i < command_count; i++) {
        if (g_result_count < 64) { // Prevent overflow
            execute_command(&commands[i], &g_results[g_result_count]);
            g_result_count++;
        }
    }

A command is executed and its result appended only while fewer than 64
results are queued; otherwise the iteration does nothing and the loop
moves on. -/
def dispatch : ExecEnv → List Command → BeaconState → BeaconState
  | _, [], st => st
  | env, cmd :: rest, st =>
    if st.results.length < 64 then
      dispatch env rest
        ⟨st.results ++ [(execute_command env cmd).1],
         if (execute_command env cmd).2 then false else st.running,
         st.executed ++ [cmd]⟩
    else
      dispatch env rest st

/-- One iteration body of `beacon_main_loop` after the sleep: perform the
check-in (its outcome abstracted as `response`), and on success clear the
result buffer (`g_result_count = 0`) and dispatch the received commands;
on failure leave the state untouched (the C code only logs). -/
def beacon_cycle (env : ExecEnv) (response : Option (Int × String)) (st : BeaconState) : BeaconState :=
  match http_checkin_commands response with
  | some cmds => dispatch env cmds ⟨[], st.running, st.executed⟩
  | none => st

/-- The `while (g_running)` loop of `beacon_main_loop`, iterated over a
finite schedule of check-in outcomes: each round first tests the running
flag, then runs one cycle. -/
def run_cycles : ExecEnv → List (Option (Int × String)) → BeaconState → BeaconState
  | _, [], st => st
  | env, o :: rest, st =>
    if st.running then run_cycles env rest (beacon_cycle env o st) else st

/-- Mirror of `beacon_main_loop` (`beacon.c`): runs the loop and returns
0 — the function's only return statement is `return 0` after the loop
exits. -/
def beacon_main_loop (env : ExecEnv) (schedule : List (Option (Int × String))) (st : BeaconState) : BeaconState × Int :=
  (run_cycles env schedule st, 0)

/-- The exit-code logic of `main` (`beacon.c`): `beacon_initialize`
failure returns 1; `beacon_start` performs exactly one first check-in
attempt and on its failure `main` returns 1; otherwise `g_running` is set,
`beacon_main_loop` runs and its return value is `main`'s result.  The
second component is true exactly when the main loop was entered. -/
def ghost_main (init_ok : Bool) (first_checkin : Option (Int × String)) (env : ExecEnv) (schedule : List (Option (Int × String))) : Int × Bool :=
  if !init_ok then (1, false)
  else if !(checkin_success first_checkin) then (1, false)
  else ((beacon_main_loop env schedule ⟨[], true, []⟩).2, true)

/-- Concrete oracle for evaluation: a fixed clock, a shell that succeeds
with fixed output, and a working directory. -/
def env_ex : ExecEnv := ⟨"2024-06-01T12:00:00Z", fun _ => (true, "shell output"), some "/tmp"⟩

/-- Concrete configuration with an HTTPS controller URL. -/
def cfg_ex : BeaconConfig := ⟨"https://controller.example/gate", "B1", "UA", 60, 10, true, ""⟩

/-- A concrete queued command result. -/
def result_ex : CommandResult := ⟨"c1", true, "out", "T1"⟩

/-- Sixty-five distinct commands delivered in a single cycle. -/
def cmds65 : List Command := (List.range 65).map (fun i => ⟨toString i, "pwd", ""⟩)

/-- The engine state right after a successful check-in cleared the
buffer. -/
def state0 : BeaconState := ⟨[], true, []⟩

/-- A subprocess output stream of 17 chunks of 1023 bytes each (17391
bytes, more than the 16384-byte output buffer); `fgets` with a 1024-byte
buffer delivers at most 1023 characters per call. -/
def chunks_ex : List (List Char) := List.replicate 17 (List.replicate 1023 'a')

/-- A peer that only completes plaintext exchanges: any TLS handshake
attempt would fail. -/
def plaintext_only_net : Channel → String → Option String :=
  fun ch _ =>
    match ch with
    | Channel.plaintext => some "HTTP/1.1 200 OK\r\n\r\nok"
    | Channel.tls => none

/-! ## Helper lemmas -/

/-- The stubbed parser returns the empty command list on every input:
both branches of `parse_commands_json` yield `[]`. -/
theorem parse_commands_json_eq_nil (s : String) : parse_commands_json s = [] := by
  unfold parse_commands_json
  split <;> rfl

/-- Dispatching an empty command list changes nothing. -/
theorem dispatch_nil (env : ExecEnv) (st : BeaconState) : dispatch env [] st = st := rfl

/-- Unfolding step of the capture loop when the chunk fits. -/
theorem capture_loop_fits (size : Nat) (c : List Char) (rest : List (List Char))
    (output : List Char) (total : Nat)
    (h1 : total < size - 1) (h2 : total + c.length < size - 1) :
    capture_loop size (c :: rest) output total =
      capture_loop size rest (output ++ c) (total + c.length) := by
  simp only [capture_loop]
  rw [if_pos h1, if_pos h2]

/-- Unfolding step of the capture loop when the next chunk does not fit:
the loop breaks and the output is left as is. -/
theorem capture_loop_break (size : Nat) (c : List Char) (rest : List (List Char))
    (output : List Char) (total : Nat)
    (h1 : total < size - 1) (h2 : ¬(total + c.length < size - 1)) :
    capture_loop size (c :: rest) output total = output := by
  simp only [capture_loop]
  rw [if_pos h1, if_neg h2]

/-- Unfolding step of the capture loop when the while-condition fails. -/
theorem capture_loop_stop (size : Nat) (c : List Char) (rest : List (List Char))
    (output : List Char) (total : Nat) (h1 : ¬(total < size - 1)) :
    capture_loop size (c :: rest) output total = output := by
  simp only [capture_loop]
  rw [if_neg h1]

/-- The capture loop never stores more than `size - 2` bytes: a chunk is
only copied when `total + len < size - 1`, and `total` tracks the stored
length. -/
theorem capture_loop_le (size : Nat) (h2 : 2 ≤ size) :
    ∀ (chunks : List (List Char)) (output : List Char) (total : Nat),
      total = output.length → output.length ≤ size - 2 →
      (capture_loop size chunks output total).length ≤ size - 2 := by
  intro chunks
  induction chunks with
  | nil => intro output total _ h; exact h
  | cons c rest ih =>
    intro output total heq h
    by_cases h1 : total < size - 1
    · by_cases hc : total + c.length < size - 1
      · rw [capture_loop_fits size c rest output total h1 hc]
        exact ih (output ++ c) (total + c.length)
          (by simp [List.length_append, heq])
          (by simp only [List.length_append]; omega)
      · rw [capture_loop_break size c rest output total h1 hc]
        exact h
    · rw [capture_loop_stop size c rest output total h1]
      exact h

/-- C's truncating remainder of a nonnegative dividend by a positive
divisor lies in `[0, m)`. -/
theorem tmod_ofNat_bounds (r : Nat) (m : Int) (hm : 0 < m) :
    0 ≤ Int.tmod (Int.ofNat r) m ∧ Int.tmod (Int.ofNat r) m < m := by
  obtain ⟨n, rfl⟩ : ∃ n : Nat, m = Int.ofNat n := ⟨m.toNat, (Int.toNat_of_nonneg hm.le).symm⟩
  have key : Int.tmod (Int.ofNat r) (Int.ofNat n) = Int.ofNat (r % n) := rfl
  rw [key]
  simp only [Int.ofNat_eq_coe] at hm ⊢
  have hn : 0 < n := by exact_mod_cast hm
  have := Nat.mod_lt r hn
  omega

/-- Searching for the empty pattern always succeeds, as with `strstr`. -/
theorem find_sub_nil_pat (t : List Char) : (find_sub t []).isSome = true := by
  cases t with
  | nil => rfl
  | cons c cs => simp [find_sub, List.isPrefixOf]

/-- A prefix of `l` is also a prefix of `l ++ t`. -/
theorem isPrefixOf_append_of_isPrefixOf (p l t : List Char)
    (h : List.isPrefixOf p l = true) : List.isPrefixOf p (l ++ t) = true := by
  rw [ List.isPrefixOf_iff_prefix] at h ⊢
  exact h.trans (List.prefix_append l t)

/-- A pattern found in `l2` is found in `l1 ++ l2`. -/
theorem find_sub_isSome_right (pat l2 : List Char) (h : (find_sub l2 pat).isSome = true) :
    ∀ l1 : List Char, (find_sub (l1 ++ l2) pat).isSome = true := by
  intro l1
  induction l1 with
  | nil => exact h
  | cons c cs ih =>
    show (find_sub (c :: (cs ++ l2)) pat).isSome = true
    simp only [find_sub]
    split
    · rfl
    · obtain ⟨v, hv⟩ := Option.isSome_iff_exists.mp ih
      rw [hv]
      rfl

/-- A pattern found in `s` is found in `s ++ t`. -/
theorem find_sub_isSome_left (pat : List Char) :
    ∀ (s : List Char), (find_sub s pat).isSome = true →
      ∀ t : List Char, (find_sub (s ++ t) pat).isSome = true := by
  intro s
  induction s with
  | nil =>
    intro h t
    have hp : pat = [] := by
      by_cases he : pat.isEmpty
      · exact List.isEmpty_iff.mp he
      · simp [find_sub, he] at h
    subst hp
    exact find_sub_nil_pat t
  | cons c cs ih =>
    intro h t
    simp only [find_sub] at h
    by_cases hpre : List.isPrefixOf pat (c :: cs) = true
    · show (find_sub (c :: (cs ++ t)) pat).isSome = true
      simp only [find_sub]
      split
      · rfl
      · next hcond =>
          exact absurd (isPrefixOf_append_of_isPrefixOf pat (c :: cs) t hpre) hcond
    · rw [if_neg hpre] at h
      have h' : (find_sub cs pat).isSome = true := by
        cases hf : find_sub cs pat with
        | none => rw [hf] at h; simp at h
        | some v => rfl
      show (find_sub (c :: (cs ++ t)) pat).isSome = true
      simp only [find_sub]
      split
      · rfl
      · obtain ⟨v, hv⟩ := Option.isSome_iff_exists.mp (ih h' t)
        rw [hv]
        rfl

/-- String version: a substring of `t` is a substring of `s ++ t`. -/
theorem contains_sub_append_right (s t pat : String) (h : contains_sub t pat = true) :
    contains_sub (s ++ t) pat = true := by
  unfold contains_sub at h ⊢
  rw [String.data_append]
  exact find_sub_isSome_right _ _ h _

/-- String version: a substring of `s` is a substring of `s ++ t`. -/
theorem contains_sub_append_left (s t pat : String) (h : contains_sub s pat = true) :
    contains_sub (s ++ t) pat = true := by
  unfold contains_sub at h ⊢
  rw [String.data_append]
  exact find_sub_isSome_left _ _ h _

/-- Regrouping: a pattern inside the first three segments of a chain is a
substring of the whole chain. -/
theorem contains_sub_assoc_mid (A B C R pat : String)
    (h : contains_sub (A ++ (B ++ C)) pat = true) :
    contains_sub (A ++ (B ++ (C ++ R))) pat = true := by
  have he : A ++ (B ++ (C ++ R)) = (A ++ (B ++ C)) ++ R := by
    rw [String.append_assoc, String.append_assoc]
  rw [he]
  exact contains_sub_append_left _ _ _ h

/-! ## Claim theorems -/

/-- Claim C1.  The result buffer is cleared to empty exactly when the
preceding check-in reported success (transport returned 0, status 200,
response data present — and every body parses under the stubbed decoder),
and a failed check-in leaves the whole engine state, in particular the
buffer contents and length, untouched: one cycle of `beacon_main_loop`
maps the state to `⟨[], running, executed⟩` on success and to itself on
failure.  (The success branch also dispatches the decoded commands, which
are always `[]` for this parser.) -/
theorem c1_buffer_cleared_iff_success (env : ExecEnv) (o : Option (Int × String)) (st : BeaconState) :
    beacon_cycle env o st = if checkin_success o then ⟨[], st.running, st.executed⟩ else st := by
  cases o with
  | none => rfl
  | some p =>
    obtain ⟨status, raw⟩ := p
    unfold beacon_cycle http_checkin_commands checkin_success
    by_cases h : (status == 200) = true
    · simp only [h, if_true, parse_commands_json_eq_nil, dispatch_nil]
    · simp only [h, if_false, Bool.false_eq_true]

/-- Claim C2 (amended).  Starting from a buffer holding at most 64
results, the dispatch loop never lets the buffer exceed 64 results, and
when the buffer is already full the remaining commands are skipped
entirely — nothing is executed and the state is unchanged. -/
theorem c2_capacity_amended (env : ExecEnv) (cmds : List Command) :
    ∀ st : BeaconState, st.results.length ≤ 64 →
      (dispatch env cmds st).results.length ≤ 64 ∧
      (64 ≤ st.results.length → dispatch env cmds st = st) := by
  induction cmds with
  | nil => exact fun st h => ⟨h, fun _ => rfl⟩
  | cons cmd rest ih =>
    intro st h
    constructor
    · unfold dispatch
      split
      · apply (ih _ ?_).1
        simp only [List.length_append, List.length_singleton]
        omega
      · exact (ih st h).1
    · intro h64
      unfold dispatch
      rw [if_neg (by omega)]
      exact (ih st h).2 h64

/-- Witness for C2 (amended): a 65-command cycle from an empty buffer
stays within 64 results, and with a full buffer a further command leaves
the state exactly as it was. -/
theorem c2_capacity_amended_witness :
    (dispatch env_ex cmds65 state0).results.length ≤ 64 ∧
    dispatch env_ex [Command.mk "x" "pwd" ""] ⟨List.replicate 64 result_ex, true, []⟩ =
      ⟨List.replicate 64 result_ex, true, []⟩ := by
  refine ⟨(c2_capacity_amended env_ex cmds65 state0 (by decide)).1, ?_⟩
  exact (c2_capacity_amended env_ex [Command.mk "x" "pwd" ""]
    ⟨List.replicate 64 result_ex, true, []⟩ (by simp)).2 (by simp)

/-- Counterexample for C2 as stated.  When 65 commands arrive in one
cycle, exactly 64 commands are executed: the 65th (id "64") never reaches
`execute_command` — its result is not computed and then discarded, the
command is skipped altogether. -/
theorem c2_counterexample :
    (dispatch env_ex cmds65 state0).results.length = 64 ∧
    (dispatch env_ex cmds65 state0).executed.length = 64 ∧
    Command.mk "64" "pwd" "" ∈ cmds65 ∧
    ¬(Command.mk "64" "pwd" "" ∈ (dispatch env_ex cmds65 state0).executed) := by
  refine ⟨by decide, by decide, by decide, by decide⟩

/-- Counterexample for C3 as stated.  With base 0 and jitter percent 0
(both reachable through `--sleep 0` and `--jitter 0`), the jitter branch
is not taken and `sleep_with_jitter` sleeps 0 seconds: the claimed
1-second floor is not applied, although base + offset = 0 ≤ 0. -/
theorem c3_counterexample : sleep_with_jitter_duration 0 0 0 = 0 := by decide

/-- Claim C3 (amended).  When the jitter percent is positive the computed
duration is at least 1 second (the floor is applied); when it is zero or
negative the duration is exactly the base with no floor; for base 60 with
jitter percent 10 every sampled duration lies in [54, 66]; and in general,
for positive jitter percent and nonnegative base, the duration is the base
plus an offset lying in [-jitterRange, +jitterRange]
(jitterRange = trunc(base * jitterPercent / 100)), clamped below at 1. -/
theorem c3_jitter_amended (base jp : Int) (r : Nat) :
    (0 < jp → 1 ≤ sleep_with_jitter_duration base jp r) ∧
    (jp ≤ 0 → sleep_with_jitter_duration base jp r = base) ∧
    (54 ≤ sleep_with_jitter_duration 60 10 r ∧ sleep_with_jitter_duration 60 10 r ≤ 66) ∧
    (0 < jp → 0 ≤ base → ∃ off : Int,
      -(Int.tdiv (base * jp) 100) ≤ off ∧ off ≤ Int.tdiv (base * jp) 100 ∧
      sleep_with_jitter_duration base jp r = if base + off < 1 then 1 else base + off) := by
  refine ⟨?_, ?_, ?_, ?_⟩
  · intro h
    unfold sleep_with_jitter_duration
    rw [if_pos h]
    dsimp only
    split <;> omega
  · intro h
    unfold sleep_with_jitter_duration
    rw [if_neg (by omega)]
  · unfold sleep_with_jitter_duration
    rw [if_pos (by norm_num)]
    dsimp only
    have h1 : Int.tdiv (60 * 10) 100 = 6 := by decide
    rw [h1]
    have h2 : Int.tmod (Int.ofNat r) (2 * 6 + 1) = ((r % 13 : Nat) : Int) := rfl
    rw [h2]
    have h3 : r % 13 < 13 := Nat.mod_lt _ (by norm_num)
    split <;> omega
  · intro hjp hbase
    have hrange : 0 ≤ Int.tdiv (base * jp) 100 :=
      Int.tdiv_nonneg (mul_nonneg hbase hjp.le) (by norm_num)
    have hb := tmod_ofNat_bounds r (2 * Int.tdiv (base * jp) 100 + 1) (by omega)
    refine ⟨Int.tmod (Int.ofNat r) (2 * Int.tdiv (base * jp) 100 + 1) - Int.tdiv (base * jp) 100,
      by omega, by omega, ?_⟩
    unfold sleep_with_jitter_duration
    rw [if_pos hjp]

/-- Witness for C3 (amended) at concrete draws, discharging each
hypothesis. -/
theorem c3_jitter_amended_witness :
    (1 ≤ sleep_with_jitter_duration 60 10 5) ∧ sleep_with_jitter_duration 60 0 5 = 60 ∧
    (∃ off : Int, -6 ≤ off ∧ off ≤ 6 ∧
      sleep_with_jitter_duration 60 10 5 = if (60 : Int) + off < 1 then 1 else 60 + off) :=
  ⟨(c3_jitter_amended 60 10 5).1 (by decide), (c3_jitter_amended 60 0 5).2.1 (by decide),
    (c3_jitter_amended 60 10 5).2.2.2 (by decide) (by decide)⟩

/-- Claim C4 (code bug).  On a regular check-in with a non-empty result
buffer, the HTTPS path sends a bare GET with no body at all — the queued
results are never placed in the request — while the HTTP path does send
the result-bearing payload; and the configured controller URL does select
the HTTPS path in `beacon_main_loop`. -/
theorem c4_https_drops_results :
    https_checkin_request cfg_ex none [result_ex] = ("GET", none) ∧
    (http_checkin_request cfg_ex none [result_ex]).2 =
      some (results_checkin_payload "B1" [result_ex]) ∧
    uses_https cfg_ex.server_url = true := by
  refine ⟨rfl, rfl, rfl⟩

/-- Claim C5 (code bug).  On the Unix path `https_request` is identical
to `http_request` for every oracle and argument — the verify flag is
dropped and the exchange runs on the plaintext channel; concretely, with
a controller URL whose parsed scheme selects TLS and a peer that can only
complete plaintext exchanges, the request still succeeds with status 200
instead of surfacing a connection error. -/
theorem c5_tls_fallback :
    (∀ (net : Channel → String → Option String) (method url headers : String)
      (data : Option String) (v : Bool),
      https_request net method url headers data v = http_request net method url headers data) ∧
    (parse_url cfg_ex.server_url).2.2.2 = true ∧
    https_request plaintext_only_net "GET" cfg_ex.server_url (checkin_headers cfg_ex) none true =
      some (200, "HTTP/1.1 200 OK\r\n\r\nok") := by
  refine ⟨fun _ _ _ _ _ _ => rfl, by decide, by decide⟩

/-- Claim C6 (code bug).  The encoder performs no escaping: a command
output containing a double quote is spliced into the payload verbatim,
so the encoded document contains `"output":"a"b"` and the string framing
of the wire format is broken. -/
theorem c6_no_escaping :
    results_checkin_payload "B1" [CommandResult.mk "c1" true "a\"b" "T1"] =
      "\x7b\"beacon_id\":\"B1\",\"timestamp\":\"2024-01-01T00:00:00Z\",\"command_results\":[\x7b\"command_id\":\"c1\",\"success\":true,\"output\":\"a\"b\",\"timestamp\":\"T1\"\x7d]\x7d" := by
  decide

/-- Claim C7 (code bug).  The decoder never produces a protocol error:
a body that is not a structured document at all decodes to the empty
command list, and a 200-status check-in carrying such a body is reported
as a fully successful check-in with zero commands; even a well-formed
`commands` array still decodes to the empty list (the parser is a stub).
-/
theorem c7_parser_never_errors :
    parse_commands_json "this is not a structured document" = [] ∧
    http_checkin_commands (some (200, "this is not a structured document")) = some [] ∧
    parse_commands_json "\x7b\"commands\":[\x7b\"id\":\"1\",\"command\":\"pwd\",\"args\":\"\"\x7d]\x7d" = [] := by
  refine ⟨by decide, by decide, by decide⟩

/-- Claim C8 (amended).  For any output buffer of size at least 2, the
stored shell output never exceeds `output_size - 2` bytes (so every
write, including the terminating NUL, stays inside the buffer), and the
success flag depends only on the subprocess exit status — truncation is
silent. -/
theorem c8_truncation_amended (output_size : Nat) (chunks : List (List Char)) (exit_status : Int)
    (h : 2 ≤ output_size) :
    (execute_shell_command true chunks exit_status output_size).2.length ≤ output_size - 2 ∧
    (execute_shell_command true chunks exit_status output_size).1 = (exit_status == 0) := by
  constructor
  · have hstep : (execute_shell_command true chunks exit_status output_size).2 =
        capture_loop output_size chunks [] 0 := by
      simp only [execute_shell_command, Bool.not_true, Bool.false_eq_true, if_false]
    rw [hstep]
    exact capture_loop_le output_size h chunks [] 0 rfl (by simp)
  · rfl

/-- Witness for C8 (amended) at the real buffer size 16384. -/
theorem c8_truncation_amended_witness :
    (execute_shell_command true chunks_ex 0 16384).2.length ≤ 16382 ∧
    (execute_shell_command true chunks_ex 0 16384).1 = true := by
  have h := c8_truncation_amended 16384 chunks_ex 0 (by norm_num)
  exact ⟨h.1, h.2.trans (by decide)⟩

/-- Counterexample for C8 as stated.  A subprocess emitting 17391 bytes
(17 chunks of 1023 bytes, more than the 16384-byte limit) has its stored
output truncated to 16368 bytes — at a chunk boundary — not to exactly
the 16384-byte limit (nor to 16383). -/
theorem c8_counterexample :
    ((chunks_ex.map List.length).sum = 17391) ∧
    (execute_shell_command true chunks_ex 0 16384).2.length = 16368 := by
  constructor
  · show ((List.replicate 17 (List.replicate 1023 'a')).map List.length).sum = 17391
    rw [List.map_replicate, List.length_replicate, List.sum_replicate]
    norm_num
  · have hstep : (execute_shell_command true chunks_ex 0 16384).2 =
        capture_loop 16384 chunks_ex [] 0 := by
      simp only [execute_shell_command, Bool.not_true, Bool.false_eq_true, if_false]
    rw [hstep, show chunks_ex = List.replicate 17 (List.replicate 1023 'a') from rfl]
    iterate 16 rw [List.replicate_succ, capture_loop_fits]
    rw [List.replicate_succ, capture_loop_break]
    all_goals try simp only [List.length_append, List.length_replicate, List.length_nil]
    all_goals omega

/-- Claim C9.  `main` returns 1, without entering the main loop, when
initialization fails or the single first check-in attempt fails, and
returns 0 (the loop's only return value) when the loop was entered and
terminates; the termination verb is what clears the running flag, and a
cleared running flag stops the loop before any further cycle. -/
theorem c9_exit_codes (init_ok : Bool) (first_checkin : Option (Int × String)) (env : ExecEnv)
    (schedule : List (Option (Int × String))) (i a : String)
    (o : Option (Int × String)) (rest : List (Option (Int × String)))
    (rs : List CommandResult) (ex : List Command) :
    ghost_main init_ok first_checkin env schedule =
      (if init_ok && checkin_success first_checkin then (0, true) else (1, false)) ∧
    (execute_command env ⟨i, "exit", a⟩).2 = true ∧
    run_cycles env (o :: rest) ⟨rs, false, ex⟩ = ⟨rs, false, ex⟩ := by
  refine ⟨?_, rfl, rfl⟩
  unfold ghost_main beacon_main_loop
  cases init_ok with
  | false => rfl
  | true =>
    cases h : checkin_success first_checkin with
    | false => simp [h]
    | true => simp [h]

/-- Claim C10.  Every outbound payload shape — first, regular and
result-bearing — contains the fixed literal `2024-01-01T00:00:00Z` as its
top-level timestamp field, for every beacon id, system snapshot and
result list (the builders take no clock input at all), while the
timestamp stored in each command result is exactly the current time read
when the command executed. -/
theorem c10_fixed_timestamp (id : String) (si : SystemInfo) (results : List CommandResult)
    (env : ExecEnv) (cmd : Command) :
    contains_sub (first_checkin_payload id si) "\"timestamp\":\"2024-01-01T00:00:00Z\"" = true ∧
    contains_sub (regular_checkin_payload id) "\"timestamp\":\"2024-01-01T00:00:00Z\"" = true ∧
    contains_sub (results_checkin_payload id results) "\"timestamp\":\"2024-01-01T00:00:00Z\"" = true ∧
    (execute_command env cmd).1.timestamp = env.now := by
  refine ⟨?_, ?_, ?_, ?_⟩
  · unfold first_checkin_payload
    simp only [String.append_assoc]
    apply contains_sub_append_right
    apply contains_sub_append_right
    apply contains_sub_assoc_mid
    decide
  · unfold regular_checkin_payload
    simp only [String.append_assoc]
    apply contains_sub_append_right
    apply contains_sub_append_right
    decide
  · unfold results_checkin_payload
    simp only [String.append_assoc]
    apply contains_sub_append_right
    apply contains_sub_append_right
    apply contains_sub_assoc_mid
    decide
  · unfold execute_command
    split
    · rfl
    · split
      · split <;> rfl
      · split <;> rfl
